import Mathlib

/-!
Shallow embedding of the uSDX-Controller firmware (HD44780toSerial.ino).

Modelling conventions:
* Machine integers are `Nat`; the only wrapping arithmetic in the sketch is
  the buffer-index mask (`& BUFFER_INDEX_MASK`), embedded with `&&&`.
* GPIO state is a pair of functions `pinModeOf`, `pinLevel` indexed by pin
  number; `pinLevel` is the output latch of the pin (the level the pin
  drives when its mode is OUTPUT).  `digitalRead` returns the latch; the
  firmware only ever calls `digitalRead` on pins it is itself driving,
  except for the power-sense pin, which is modelled as an environment
  input to the outer loop instead.
* `millis()` is modelled by an explicit `now : Nat` argument threaded to
  each operation that reads the clock (time is monotone over the horizon
  of a gesture, so `Nat` subtraction coincides with the unsigned
  wraparound subtraction used by the source).
* `Serial.write` appends to `serialOut`; inbound gesture bytes queue in
  `serialIn` with `Serial.available() > 0` meaning the list is nonempty
  and `Serial.read()` popping the head.
* Interrupt handlers are explicit state transformers; their asynchronous
  firing is modelled by the `Step` relation, which interleaves main-loop
  iterations, armed interrupt firings, and serial-byte arrivals.
-/

namespace HD44780

def BUFFER_SIZE : Nat := 1024

def BUFFER_INDEX_MASK : Nat := BUFFER_SIZE - 1

namespace Pin

def ROT_A : Nat := 18

def ROT_B : Nat := 19

def RIGHT_BUTTON : Nat := 3

def LEFT_BUTTON : Nat := 4

def ENCODER_BUTTON : Nat := 5

def LCD_ENABLE : Nat := 7

def LCD_POWER : Nat := 6

def PUSH_TO_TALK : Nat := 2

def USDX_RESET : Nat := 13

end Pin

/-- Board constant `LED_BUILTIN`; any pin number distinct from the ones in
namespace `Pin` is faithful (it is 13 on classic boards but the sketch
targets a board where it differs from `Pin.USDX_RESET`). -/
def LED_BUILTIN : Nat := 25

def PULSE_DURATION : Nat := 5

def CLICK_LEFT_BUTTON : Nat := 1

def CLICK_RIGHT_BUTTON : Nat := 2

def CLICK_ENCODER_BUTTON : Nat := 3

def ROTATE_ENCODER_CLOCKWISE : Nat := 4

def ROTATE_ENCODER_COUNTERCLOCKWISE : Nat := 5

def PUSH_TO_TALK_START : Nat := 6

def PUSH_TO_TALK_END : Nat := 7

def RESET_THE_USDX : Nat := 8

/-- `ctrl_msg_t` value `USDX_POWERED_UP = B11111111`. -/
def USDX_POWERED_UP : Nat := 0xFF

/-- `ctrl_msg_t` value `USDX_POWERED_DOWN = B11111110`. -/
def USDX_POWERED_DOWN : Nat := 0xFE

/-- Arduino pin modes used by the sketch. -/
inductive PinMode where
  | INPUT
  | INPUT_PULLUP
  | INPUT_PULLDOWN
  | OUTPUT
deriving DecidableEq, Repr

/-- `Encoder::state_t`. -/
inductive EncState where
  | ENC_STATE_IDLE
  | ENC_STATE_1
  | ENC_STATE_2
  | ENC_STATE_3
deriving DecidableEq, Repr

/-- The complete mutable state of the sketch: globals, the two emulator
namespaces, GPIO latches, interrupt arming and the serial channel. -/
structure SysState where
  pinModeOf : Nat → PinMode
  pinLevel : Nat → Bool
  usdxPowerOn : Bool
  lcdBuffer : Nat → Nat
  idxOfNextLcdWrite : Nat
  idxOfNextLcdRead : Nat
  gestureInProgress : Bool
  timeOfClickStart : Nat
  pinOfButtonClicked : Nat
  encStateTime : Nat
  encState : EncState
  firstPin : Nat
  secondPin : Nat
  serialOut : List Nat
  serialIn : List Nat
  lcdEnableArmed : Bool
  lcdPowerArmed : Bool

/-- `digitalWrite(p, v)`. -/
def digitalWrite (s : SysState) (p : Nat) (v : Bool) : SysState :=
  { s with pinLevel := fun q => if q = p then v else s.pinLevel q }

/-- `pinMode(p, m)`. -/
def pinModeSet (s : SysState) (p : Nat) (m : PinMode) : SysState :=
  { s with pinModeOf := fun q => if q = p then m else s.pinModeOf q }

/-- `digitalRead(p)`: the level of the pin's latch (the firmware reads only
pins it is currently driving through this model). -/
def digitalRead (s : SysState) (p : Nat) : Bool :=
  s.pinLevel p

/-- First byte emitted by `sendControlMessage`:
`bits1 = ((B10000000 & cMsg)>>2) | ((B01110000 & cMsg)>>4)`. -/
def ctrlBits1 (msg : Nat) : Nat :=
  ((0x80 &&& msg) >>> 2) ||| ((0x70 &&& msg) >>> 4)

/-- Second byte emitted by `sendControlMessage`:
`bits2 = ((B00001000 & cMsg)<<2) | ((B00000111 & cMsg)<<0)`. -/
def ctrlBits2 (msg : Nat) : Nat :=
  ((0x08 &&& msg) <<< 2) ||| (0x07 &&& msg)

/-- `sendControlMessage`: two `Serial.write` calls of the split bytes. -/
def sendControlMessage (s : SysState) (msg : Nat) : SysState :=
  { s with serialOut := s.serialOut ++ [ctrlBits1 msg, ctrlBits2 msg] }

/-- Modelled from the spec: the repository contains no decoder (it lives in
the downstream serial consumer); this is the inverse of the nibble
bit-splitting rule of §4.2, reassembling the 8-bit command value from the
two framed bytes (bit 5 of each byte is the nibble's top bit, bits 2..0
are its low bits). -/
def decodeControlBytes (b1 b2 : Nat) : Nat :=
  (((b1 &&& 0x20) <<< 2) ||| ((b1 &&& 0x07) <<< 4)) |||
    (((b2 &&& 0x20) >>> 2) ||| (b2 &&& 0x07))

/-- A genuine HD44780 "set DDRAM address" command byte for address `a`:
high bit set, address in the low 7 bits. -/
def setDdramAddressCmd (a : Nat) : Nat :=
  0x80 ||| a

/-- `usdxPowerDownISR`. -/
def usdxPowerDownISR (s : SysState) : SysState :=
  { s with usdxPowerOn := false }

/-- `lcdActivityISR`, with the sampled `PORTD.IN` byte as argument. -/
def lcdActivityISR (s : SysState) (portDIn : Nat) : SysState :=
  let s1 : SysState :=
    { s with
      lcdBuffer := fun i => if i = s.idxOfNextLcdWrite then portDIn else s.lcdBuffer i,
      idxOfNextLcdWrite := (s.idxOfNextLcdWrite + 1) &&& BUFFER_INDEX_MASK }
  if s1.idxOfNextLcdWrite = s1.idxOfNextLcdRead then
    digitalWrite s1 LED_BUILTIN true
  else
    s1

namespace Button

/-- `Button::clickInProgress`. -/
def clickInProgress (s : SysState) : Bool :=
  s.pinOfButtonClicked > 0

/-- `Button::startClick`. -/
def startClick (s : SysState) (buttonPin : Nat) (pushedState : Bool) (now : Nat) : SysState :=
  let s1 := pinModeSet s buttonPin PinMode.OUTPUT
  let s2 := digitalWrite s1 buttonPin pushedState
  { s2 with timeOfClickStart := now, pinOfButtonClicked := buttonPin }

/-- `Button::endClick`. -/
def endClick (s : SysState) : SysState :=
  let newState := !(digitalRead s s.pinOfButtonClicked)
  let s1 := digitalWrite s s.pinOfButtonClicked newState
  let s2 := pinModeSet s1 s.pinOfButtonClicked PinMode.INPUT
  { s2 with timeOfClickStart := 0, pinOfButtonClicked := 0, gestureInProgress := false }

/-- `Button::emulate`. -/
def emulate (s : SysState) (now : Nat) : SysState :=
  let isTimeToEndClick := now > s.timeOfClickStart + PULSE_DURATION
  if isTimeToEndClick then endClick s else s

end Button

namespace Encoder

/-- `Encoder::rotationInProgress`. -/
def rotationInProgress (s : SysState) : Bool :=
  decide (s.encState ≠ EncState.ENC_STATE_IDLE)

/-- `Encoder::dropFirstPin`. -/
def dropFirstPin (s : SysState) (now : Nat) : SysState :=
  let s1 := pinModeSet s s.firstPin PinMode.OUTPUT
  let s2 := digitalWrite s1 s.firstPin false
  { s2 with encState := EncState.ENC_STATE_1, encStateTime := now }

/-- `Encoder::dropSecondPin`. -/
def dropSecondPin (s : SysState) (now : Nat) : SysState :=
  let s1 := pinModeSet s s.secondPin PinMode.OUTPUT
  let s2 := digitalWrite s1 s.secondPin false
  { s2 with encState := EncState.ENC_STATE_2, encStateTime := now }

/-- `Encoder::raiseFirstPin`. -/
def raiseFirstPin (s : SysState) (now : Nat) : SysState :=
  let s1 := pinModeSet s s.firstPin PinMode.INPUT
  { s1 with encState := EncState.ENC_STATE_3, encStateTime := now }

/-- `Encoder::raiseSecondPin`. -/
def raiseSecondPin (s : SysState) (now : Nat) : SysState :=
  let s1 := pinModeSet s s.secondPin PinMode.INPUT
  { s1 with encState := EncState.ENC_STATE_IDLE, encStateTime := now }

/-- `Encoder::startRotation`. -/
def startRotation (s : SysState) (fp sp : Nat) (now : Nat) : SysState :=
  dropFirstPin { s with firstPin := fp, secondPin := sp } now

/-- `Encoder::emulate`. -/
def emulate (s : SysState) (now : Nat) : SysState :=
  if now - s.encStateTime < PULSE_DURATION then s
  else
    match s.encState with
    | EncState.ENC_STATE_1 => dropSecondPin s now
    | EncState.ENC_STATE_2 => raiseFirstPin s now
    | EncState.ENC_STATE_3 => { raiseSecondPin s now with gestureInProgress := false }
    | EncState.ENC_STATE_IDLE => s

end Encoder

/-- `startPushToTalk`. -/
def startPushToTalk (s : SysState) : SysState :=
  let s1 := pinModeSet s Pin.PUSH_TO_TALK PinMode.OUTPUT
  let s2 := digitalWrite s1 Pin.PUSH_TO_TALK false
  { s2 with gestureInProgress := false }

/-- `endPushToTalk`. -/
def endPushToTalk (s : SysState) : SysState :=
  let s1 := pinModeSet s Pin.PUSH_TO_TALK PinMode.INPUT
  { s1 with gestureInProgress := false }

/-- `doUsdxReset` (the `delay(1)` calls only pass wall time; the reset
pulse runs synchronously). -/
def doUsdxReset (s : SysState) (now : Nat) : SysState :=
  let s1 := digitalWrite s LED_BUILTIN true
  let s2 := { s1 with lcdEnableArmed := false }
  let s3 := { s2 with idxOfNextLcdRead := 0, idxOfNextLcdWrite := 0 }
  let s4 := Button.startClick s3 Pin.USDX_RESET false now
  let s5 := Button.endClick s4
  let s6 := { s5 with lcdEnableArmed := true }
  digitalWrite s6 LED_BUILTIN false

/-- `performInputGesture`. -/
def performInputGesture (s : SysState) (gesture : Nat) (now : Nat) : SysState :=
  let s1 := { s with gestureInProgress := true }
  if gesture = CLICK_LEFT_BUTTON then Button.startClick s1 Pin.LEFT_BUTTON true now
  else if gesture = CLICK_RIGHT_BUTTON then Button.startClick s1 Pin.RIGHT_BUTTON true now
  else if gesture = CLICK_ENCODER_BUTTON then Button.startClick s1 Pin.ENCODER_BUTTON true now
  else if gesture = ROTATE_ENCODER_CLOCKWISE then Encoder.startRotation s1 Pin.ROT_A Pin.ROT_B now
  else if gesture = ROTATE_ENCODER_COUNTERCLOCKWISE then Encoder.startRotation s1 Pin.ROT_B Pin.ROT_A now
  else if gesture = PUSH_TO_TALK_START then startPushToTalk s1
  else if gesture = PUSH_TO_TALK_END then endPushToTalk s1
  else if gesture = RESET_THE_USDX then doUsdxReset s1 now
  else s1

/-- The draining conditional at the head of the service loop:
if `idxOfNextLcdRead != idxOfNextLcdWrite`, `Serial.write` the byte at the
read index and advance the read index under the mask. -/
def drainStep (s : SysState) : SysState :=
  if s.idxOfNextLcdRead ≠ s.idxOfNextLcdWrite then
    { s with
      serialOut := s.serialOut ++ [s.lcdBuffer s.idxOfNextLcdRead],
      idxOfNextLcdRead := (s.idxOfNextLcdRead + 1) &&& BUFFER_INDEX_MASK }
  else s

/-- The gesture-dispatch conditional of the service loop:
if `!gestureInProgress && Serial.available() > 0`, `Serial.read()` one
byte and `performInputGesture` it. -/
def dispatchStep (s : SysState) (now : Nat) : SysState :=
  if s.gestureInProgress = false then
    match s.serialIn with
    | g :: rest => performInputGesture { s with serialIn := rest } g now
    | [] => s
  else s

/-- The `if (Button::clickInProgress()) Button::emulate();` conditional. -/
def emulateButtonStep (s : SysState) (now : Nat) : SysState :=
  if Button.clickInProgress s then Button.emulate s now else s

/-- The `if (Encoder::rotationInProgress()) Encoder::emulate();` conditional. -/
def emulateEncoderStep (s : SysState) (now : Nat) : SysState :=
  if Encoder.rotationInProgress s then Encoder.emulate s now else s

/-- One iteration of the service loop body (`loop`, lines 268-284):
drain one buffered byte, dispatch one gesture byte if none is in
progress, then advance whichever emulator is active. -/
def loopBody (s : SysState) (now : Nat) : SysState :=
  emulateEncoderStep (emulateButtonStep (dispatchStep (drainStep s) now) now) now

/-- The service-loop guard: `usdxPowerOn || idxOfNextLcdRead != idxOfNextLcdWrite`. -/
def svcCond (s : SysState) : Bool :=
  s.usdxPowerOn || decide (s.idxOfNextLcdRead ≠ s.idxOfNextLcdWrite)

/-- The inner `while` of `loop`, fuel-bounded; `clk i` is the `millis()`
reading of the i-th iteration. -/
def serviceLoop : Nat → (Nat → Nat) → Nat → SysState → SysState
  | 0, _, _, s => s
  | fuel + 1, clk, i, s =>
      if svcCond s then serviceLoop fuel clk (i + 1) (loopBody s (clk i)) else s

/-- The code after the service loop exits: detach the power interrupt,
detach the LCD-enable interrupt, then send `USDX_POWERED_DOWN`. -/
def afterServiceLoop (s : SysState) : SysState :=
  let s1 := { s with lcdPowerArmed := false }
  let s2 := { s1 with lcdEnableArmed := false }
  sendControlMessage s2 USDX_POWERED_DOWN

/-- One pass of `loop()`: the power-wait prologue (taking as an
environment flag whether `LCD_POWER` already read high), arming both
interrupts with `usdxPowerOn = true`, the fuel-bounded service loop, and
the power-down epilogue. -/
def loopOnce (powerAlreadyOn : Bool) (fuel : Nat) (clk : Nat → Nat) (s : SysState) : SysState :=
  let s1 :=
    if powerAlreadyOn then s
    else
      digitalWrite
        (sendControlMessage (digitalWrite s LED_BUILTIN true) USDX_POWERED_UP)
        LED_BUILTIN false
  let s2 := { s1 with usdxPowerOn := true, lcdEnableArmed := true, lcdPowerArmed := true }
  afterServiceLoop (serviceLoop fuel clk 0 s2)

/-- Iterated draining (used to state FIFO delivery of buffered bytes). -/
def drainN : Nat → SysState → SysState
  | 0, s => s
  | n + 1, s => drainN n (drainStep s)

/-- Number of buffered-but-unread bytes (for in-range indices). -/
def pendingCount (s : SysState) : Nat :=
  (s.idxOfNextLcdWrite + BUFFER_SIZE - s.idxOfNextLcdRead) % BUFFER_SIZE

/-- Atomic system events: a main-loop iteration at some clock reading, an
armed interrupt firing, or a gesture byte arriving on the serial link. -/
inductive Step : SysState → SysState → Prop where
  | loopIter (s : SysState) (now : Nat) : Step s (loopBody s now)
  | lcdIsr (s : SysState) (b : Nat) (h : s.lcdEnableArmed = true) : Step s (lcdActivityISR s b)
  | powerIsr (s : SysState) (h : s.lcdPowerArmed = true) : Step s (usdxPowerDownISR s)
  | serialArrives (s : SysState) (b : Nat) : Step s { s with serialIn := s.serialIn ++ [b] }

/-- Reflexive-transitive closure of `Step`. -/
inductive Reachable : SysState → SysState → Prop where
  | refl (s : SysState) : Reachable s s
  | tail {s t u : SysState} : Reachable s t → Step t u → Reachable s u

/-- Pin configuration established by `setup()`. -/
def setupModes : Nat → PinMode := fun p =>
  if p = Pin.LCD_ENABLE then PinMode.INPUT_PULLUP
  else if p = Pin.LCD_POWER then PinMode.INPUT_PULLDOWN
  else if p = Pin.USDX_RESET then PinMode.OUTPUT
  else if p = LED_BUILTIN then PinMode.OUTPUT
  else PinMode.INPUT

/-- State at entry to the service loop on a fresh boot (after `setup()`
and the arming prologue of `loop()`), with an arbitrary queue of arrived
gesture bytes `q`. -/
def entryState (q : List Nat) : SysState :=
  { pinModeOf := setupModes
    pinLevel := fun _ => false
    usdxPowerOn := true
    lcdBuffer := fun _ => 0
    idxOfNextLcdWrite := 0
    idxOfNextLcdRead := 0
    gestureInProgress := false
    timeOfClickStart := 0
    pinOfButtonClicked := 0
    encStateTime := 0
    encState := EncState.ENC_STATE_IDLE
    firstPin := 0
    secondPin := 0
    serialOut := []
    serialIn := q
    lcdEnableArmed := true
    lcdPowerArmed := true }

/-- Concrete state: a left-button click started at time 0 from the fresh
entry state. -/
def btnSample : SysState :=
  Button.startClick (entryState []) Pin.LEFT_BUTTON true 0

/-- Concrete trace state: one service-loop iteration on the fresh entry
state with gesture bytes `[PUSH_TO_TALK_START, CLICK_LEFT_BUTTON]`
queued (dispatches the push-to-talk start). -/
def pttTrace1 : SysState :=
  loopBody (entryState [PUSH_TO_TALK_START, CLICK_LEFT_BUTTON]) 0

/-- Concrete trace state: second service-loop iteration (dispatches the
left-button click while push-to-talk is still engaged). -/
def pttTrace2 : SysState :=
  loopBody pttTrace1 0

/-- Concrete state: a clockwise rotation dispatched at time 0 from the
fresh entry state. -/
def encSample : SysState :=
  performInputGesture (entryState []) ROTATE_ENCODER_CLOCKWISE 0

/-- Concrete state: one capture-interrupt byte `0x41` appended to the
fresh entry state. -/
def lcdSample : SysState :=
  lcdActivityISR (entryState []) 0x41

/-- Concrete state: the fresh entry state after the power-down interrupt
has cleared `usdxPowerOn` (the service-loop guard is false). -/
def haltSample : SysState :=
  usdxPowerDownISR (entryState [])

/-- The mutual-exclusion invariant relating the two emulators and the
`gestureInProgress` flag. -/
def gestureInv (s : SysState) : Prop :=
  (Button.clickInProgress s = true → s.gestureInProgress = true) ∧
    (Encoder.rotationInProgress s = true → s.gestureInProgress = true) ∧
    ¬(Button.clickInProgress s = true ∧ Encoder.rotationInProgress s = true)

/-- Both capture-buffer indices are within the buffer bounds. -/
def idxInv (s : SysState) : Prop :=
  s.idxOfNextLcdWrite < BUFFER_SIZE ∧ s.idxOfNextLcdRead < BUFFER_SIZE

theorem and_mask_eq_mod (x : Nat) : x &&& BUFFER_INDEX_MASK = x % BUFFER_SIZE := by
  have h := Nat.and_pow_two_sub_one_eq_mod x 10
  norm_num at h
  simpa [BUFFER_INDEX_MASK, BUFFER_SIZE] using h

theorem and_mask_lt (x : Nat) : x &&& BUFFER_INDEX_MASK < BUFFER_SIZE := by
  rw [and_mask_eq_mod]
  exact Nat.mod_lt _ (by norm_num [BUFFER_SIZE])

theorem buttonEmulate_eq (s : SysState) (now : Nat) :
    Button.emulate s now =
      if now > s.timeOfClickStart + PULSE_DURATION then Button.endClick s else s := rfl

theorem encoderEmulate_eq (s : SysState) (now : Nat) :
    Encoder.emulate s now =
      if now - s.encStateTime < PULSE_DURATION then s
      else
        match s.encState with
        | EncState.ENC_STATE_1 => Encoder.dropSecondPin s now
        | EncState.ENC_STATE_2 => Encoder.raiseFirstPin s now
        | EncState.ENC_STATE_3 => { Encoder.raiseSecondPin s now with gestureInProgress := false }
        | EncState.ENC_STATE_IDLE => s := rfl

theorem clickInProgress_iff (s : SysState) :
    Button.clickInProgress s = true ↔ 0 < s.pinOfButtonClicked := by
  simp [Button.clickInProgress]

theorem rotationInProgress_iff (s : SysState) :
    Encoder.rotationInProgress s = true ↔ s.encState ≠ EncState.ENC_STATE_IDLE := by
  simp [Encoder.rotationInProgress]

@[simp] theorem startClick_pinOfButtonClicked (s : SysState) (p : Nat) (v : Bool) (now : Nat) :
    (Button.startClick s p v now).pinOfButtonClicked = p := rfl

@[simp] theorem startClick_timeOfClickStart (s : SysState) (p : Nat) (v : Bool) (now : Nat) :
    (Button.startClick s p v now).timeOfClickStart = now := rfl

@[simp] theorem startClick_encState (s : SysState) (p : Nat) (v : Bool) (now : Nat) :
    (Button.startClick s p v now).encState = s.encState := rfl

@[simp] theorem startClick_gestureInProgress (s : SysState) (p : Nat) (v : Bool) (now : Nat) :
    (Button.startClick s p v now).gestureInProgress = s.gestureInProgress := rfl

@[simp] theorem startClick_serialIn (s : SysState) (p : Nat) (v : Bool) (now : Nat) :
    (Button.startClick s p v now).serialIn = s.serialIn := rfl

@[simp] theorem endClick_pinOfButtonClicked (s : SysState) :
    (Button.endClick s).pinOfButtonClicked = 0 := rfl

@[simp] theorem endClick_gestureInProgress (s : SysState) :
    (Button.endClick s).gestureInProgress = false := rfl

@[simp] theorem endClick_encState (s : SysState) :
    (Button.endClick s).encState = s.encState := rfl

@[simp] theorem endClick_serialIn (s : SysState) :
    (Button.endClick s).serialIn = s.serialIn := rfl

@[simp] theorem dropFirstPin_encState (s : SysState) (now : Nat) :
    (Encoder.dropFirstPin s now).encState = EncState.ENC_STATE_1 := rfl

@[simp] theorem dropFirstPin_gestureInProgress (s : SysState) (now : Nat) :
    (Encoder.dropFirstPin s now).gestureInProgress = s.gestureInProgress := rfl

@[simp] theorem dropFirstPin_pinOfButtonClicked (s : SysState) (now : Nat) :
    (Encoder.dropFirstPin s now).pinOfButtonClicked = s.pinOfButtonClicked := rfl

@[simp] theorem dropFirstPin_serialIn (s : SysState) (now : Nat) :
    (Encoder.dropFirstPin s now).serialIn = s.serialIn := rfl

@[simp] theorem dropSecondPin_encState (s : SysState) (now : Nat) :
    (Encoder.dropSecondPin s now).encState = EncState.ENC_STATE_2 := rfl

@[simp] theorem dropSecondPin_gestureInProgress (s : SysState) (now : Nat) :
    (Encoder.dropSecondPin s now).gestureInProgress = s.gestureInProgress := rfl

@[simp] theorem dropSecondPin_pinOfButtonClicked (s : SysState) (now : Nat) :
    (Encoder.dropSecondPin s now).pinOfButtonClicked = s.pinOfButtonClicked := rfl

@[simp] theorem dropSecondPin_serialIn (s : SysState) (now : Nat) :
    (Encoder.dropSecondPin s now).serialIn = s.serialIn := rfl

@[simp] theorem raiseFirstPin_encState (s : SysState) (now : Nat) :
    (Encoder.raiseFirstPin s now).encState = EncState.ENC_STATE_3 := rfl

@[simp] theorem raiseFirstPin_gestureInProgress (s : SysState) (now : Nat) :
    (Encoder.raiseFirstPin s now).gestureInProgress = s.gestureInProgress := rfl

@[simp] theorem raiseFirstPin_pinOfButtonClicked (s : SysState) (now : Nat) :
    (Encoder.raiseFirstPin s now).pinOfButtonClicked = s.pinOfButtonClicked := rfl

@[simp] theorem raiseFirstPin_serialIn (s : SysState) (now : Nat) :
    (Encoder.raiseFirstPin s now).serialIn = s.serialIn := rfl

@[simp] theorem raiseSecondPin_encState (s : SysState) (now : Nat) :
    (Encoder.raiseSecondPin s now).encState = EncState.ENC_STATE_IDLE := rfl

@[simp] theorem raiseSecondPin_gestureInProgress (s : SysState) (now : Nat) :
    (Encoder.raiseSecondPin s now).gestureInProgress = s.gestureInProgress := rfl

@[simp] theorem raiseSecondPin_pinOfButtonClicked (s : SysState) (now : Nat) :
    (Encoder.raiseSecondPin s now).pinOfButtonClicked = s.pinOfButtonClicked := rfl

@[simp] theorem raiseSecondPin_serialIn (s : SysState) (now : Nat) :
    (Encoder.raiseSecondPin s now).serialIn = s.serialIn := rfl

@[simp] theorem startPushToTalk_gestureInProgress (s : SysState) :
    (startPushToTalk s).gestureInProgress = false := rfl

@[simp] theorem startPushToTalk_encState (s : SysState) :
    (startPushToTalk s).encState = s.encState := rfl

@[simp] theorem startPushToTalk_pinOfButtonClicked (s : SysState) :
    (startPushToTalk s).pinOfButtonClicked = s.pinOfButtonClicked := rfl

@[simp] theorem startPushToTalk_serialIn (s : SysState) :
    (startPushToTalk s).serialIn = s.serialIn := rfl

@[simp] theorem endPushToTalk_gestureInProgress (s : SysState) :
    (endPushToTalk s).gestureInProgress = false := rfl

@[simp] theorem endPushToTalk_encState (s : SysState) :
    (endPushToTalk s).encState = s.encState := rfl

@[simp] theorem endPushToTalk_pinOfButtonClicked (s : SysState) :
    (endPushToTalk s).pinOfButtonClicked = s.pinOfButtonClicked := rfl

@[simp] theorem endPushToTalk_serialIn (s : SysState) :
    (endPushToTalk s).serialIn = s.serialIn := rfl

@[simp] theorem doUsdxReset_gestureInProgress (s : SysState) (now : Nat) :
    (doUsdxReset s now).gestureInProgress = false := rfl

@[simp] theorem doUsdxReset_encState (s : SysState) (now : Nat) :
    (doUsdxReset s now).encState = s.encState := rfl

@[simp] theorem doUsdxReset_pinOfButtonClicked (s : SysState) (now : Nat) :
    (doUsdxReset s now).pinOfButtonClicked = 0 := rfl

@[simp] theorem doUsdxReset_serialIn (s : SysState) (now : Nat) :
    (doUsdxReset s now).serialIn = s.serialIn := rfl

@[simp] theorem doUsdxReset_idxOfNextLcdWrite (s : SysState) (now : Nat) :
    (doUsdxReset s now).idxOfNextLcdWrite = 0 := rfl

@[simp] theorem doUsdxReset_idxOfNextLcdRead (s : SysState) (now : Nat) :
    (doUsdxReset s now).idxOfNextLcdRead = 0 := rfl

@[simp] theorem drainStep_gestureInProgress (s : SysState) :
    (drainStep s).gestureInProgress = s.gestureInProgress := by
  unfold drainStep
  split <;> rfl

@[simp] theorem drainStep_encState (s : SysState) :
    (drainStep s).encState = s.encState := by
  unfold drainStep
  split <;> rfl

@[simp] theorem drainStep_pinOfButtonClicked (s : SysState) :
    (drainStep s).pinOfButtonClicked = s.pinOfButtonClicked := by
  unfold drainStep
  split <;> rfl

@[simp] theorem drainStep_serialIn (s : SysState) :
    (drainStep s).serialIn = s.serialIn := by
  unfold drainStep
  split <;> rfl

@[simp] theorem drainStep_timeOfClickStart (s : SysState) :
    (drainStep s).timeOfClickStart = s.timeOfClickStart := by
  unfold drainStep
  split <;> rfl

@[simp] theorem drainStep_encStateTime (s : SysState) :
    (drainStep s).encStateTime = s.encStateTime := by
  unfold drainStep
  split <;> rfl

@[simp] theorem drainStep_lcdBuffer (s : SysState) :
    (drainStep s).lcdBuffer = s.lcdBuffer := by
  unfold drainStep
  split <;> rfl

@[simp] theorem drainStep_idxOfNextLcdWrite (s : SysState) :
    (drainStep s).idxOfNextLcdWrite = s.idxOfNextLcdWrite := by
  unfold drainStep
  split <;> rfl

@[simp] theorem lcdActivityISR_gestureInProgress (s : SysState) (b : Nat) :
    (lcdActivityISR s b).gestureInProgress = s.gestureInProgress := by
  unfold lcdActivityISR
  dsimp only
  split <;> rfl

@[simp] theorem lcdActivityISR_encState (s : SysState) (b : Nat) :
    (lcdActivityISR s b).encState = s.encState := by
  unfold lcdActivityISR
  dsimp only
  split <;> rfl

@[simp] theorem lcdActivityISR_pinOfButtonClicked (s : SysState) (b : Nat) :
    (lcdActivityISR s b).pinOfButtonClicked = s.pinOfButtonClicked := by
  unfold lcdActivityISR
  dsimp only
  split <;> rfl

@[simp] theorem lcdActivityISR_serialIn (s : SysState) (b : Nat) :
    (lcdActivityISR s b).serialIn = s.serialIn := by
  unfold lcdActivityISR
  dsimp only
  split <;> rfl

@[simp] theorem lcdActivityISR_idxOfNextLcdRead (s : SysState) (b : Nat) :
    (lcdActivityISR s b).idxOfNextLcdRead = s.idxOfNextLcdRead := by
  unfold lcdActivityISR
  dsimp only
  split <;> rfl

@[simp] theorem lcdActivityISR_idxOfNextLcdWrite (s : SysState) (b : Nat) :
    (lcdActivityISR s b).idxOfNextLcdWrite = (s.idxOfNextLcdWrite + 1) &&& BUFFER_INDEX_MASK := by
  unfold lcdActivityISR
  dsimp only
  split <;> rfl

theorem gestureInv_congr (s t : SysState)
    (h1 : t.pinOfButtonClicked = s.pinOfButtonClicked)
    (h2 : t.encState = s.encState)
    (h3 : t.gestureInProgress = s.gestureInProgress)
    (h : gestureInv s) : gestureInv t := by
  unfold gestureInv Button.clickInProgress Encoder.rotationInProgress at h ⊢
  rw [h1, h2, h3]
  exact h

theorem gestureInv_pin_eq_zero (s : SysState) (h : gestureInv s)
    (hg : s.gestureInProgress = false) : s.pinOfButtonClicked = 0 := by
  by_contra hpin
  have := h.1 ((clickInProgress_iff s).2 (Nat.pos_of_ne_zero hpin))
  rw [hg] at this
  exact Bool.false_ne_true this

theorem gestureInv_enc_idle (s : SysState) (h : gestureInv s)
    (hg : s.gestureInProgress = false) : s.encState = EncState.ENC_STATE_IDLE := by
  by_contra henc
  have := h.2.1 ((rotationInProgress_iff s).2 henc)
  rw [hg] at this
  exact Bool.false_ne_true this

theorem performInputGesture_gestureInv (s : SysState) (g now : Nat)
    (hpin : s.pinOfButtonClicked = 0) (henc : s.encState = EncState.ENC_STATE_IDLE) :
    gestureInv (performInputGesture s g now) := by
  unfold performInputGesture gestureInv
  split_ifs <;>
    simp [Button.clickInProgress, Encoder.rotationInProgress, Encoder.startRotation,
      Pin.LEFT_BUTTON, Pin.RIGHT_BUTTON, Pin.ENCODER_BUTTON, hpin, henc]

theorem buttonEmulate_gestureInv (s : SysState) (now : Nat) (h : gestureInv s)
    (hc : Button.clickInProgress s = true) : gestureInv (Button.emulate s now) := by
  rw [buttonEmulate_eq]
  split
  · have hrot : Encoder.rotationInProgress s = false := by
      cases hB : Encoder.rotationInProgress s with
      | false => rfl
      | true => exact absurd ⟨hc, hB⟩ h.2.2
    unfold gestureInv
    refine ⟨?_, ?_, ?_⟩
    · intro hcc
      simp [Button.clickInProgress] at hcc
    · intro hrr
      rw [rotationInProgress_iff, endClick_encState] at hrr
      exact absurd ((rotationInProgress_iff s).2 hrr) (by simp [hrot])
    · rintro ⟨hcc, -⟩
      simp [Button.clickInProgress] at hcc
  · exact h

theorem encoderEmulate_gestureInv (s : SysState) (now : Nat) (h : gestureInv s)
    (hr : Encoder.rotationInProgress s = true) : gestureInv (Encoder.emulate s now) := by
  rw [encoderEmulate_eq]
  split
  · exact h
  · have hclick : Button.clickInProgress s = false := by
      cases hB : Button.clickInProgress s with
      | false => rfl
      | true => exact absurd ⟨hB, hr⟩ h.2.2
    have hgip : s.gestureInProgress = true := h.2.1 hr
    have hpin : s.pinOfButtonClicked = 0 := by
      rcases Nat.eq_zero_or_pos s.pinOfButtonClicked with h0 | h1
      · exact h0
      · simp [(clickInProgress_iff s).2 h1] at hclick
    cases hst : s.encState <;>
      simp [hst, gestureInv, Button.clickInProgress, Encoder.rotationInProgress, hpin, hgip, h.1,
        h.2.1, h.2.2]

theorem dispatchStep_gestureInv (s : SysState) (now : Nat) (h : gestureInv s) :
    gestureInv (dispatchStep s now) := by
  unfold dispatchStep
  split
  · rename_i hg
    cases hsi : s.serialIn with
    | nil => exact h
    | cons g rest =>
        exact performInputGesture_gestureInv _ g now
          (gestureInv_pin_eq_zero s h hg) (gestureInv_enc_idle s h hg)
  · exact h

theorem emulateButtonStep_gestureInv (s : SysState) (now : Nat) (h : gestureInv s) :
    gestureInv (emulateButtonStep s now) := by
  unfold emulateButtonStep
  split
  · rename_i hc
    exact buttonEmulate_gestureInv s now h (by simpa using hc)
  · exact h

theorem emulateEncoderStep_gestureInv (s : SysState) (now : Nat) (h : gestureInv s) :
    gestureInv (emulateEncoderStep s now) := by
  unfold emulateEncoderStep
  split
  · rename_i hr
    exact encoderEmulate_gestureInv s now h (by simpa using hr)
  · exact h

theorem loopBody_gestureInv (s : SysState) (now : Nat) (h : gestureInv s) :
    gestureInv (loopBody s now) := by
  unfold loopBody
  exact emulateEncoderStep_gestureInv _ now
    (emulateButtonStep_gestureInv _ now
      (dispatchStep_gestureInv _ now
        (gestureInv_congr s _ (by simp) (by simp) (by simp) h)))

theorem step_gestureInv {s t : SysState} (hst : Step s t) (h : gestureInv s) : gestureInv t := by
  cases hst with
  | loopIter now => exact loopBody_gestureInv s now h
  | lcdIsr b harm => exact gestureInv_congr s _ (by simp) (by simp) (by simp) h
  | powerIsr harm => exact gestureInv_congr s _ rfl rfl rfl h
  | serialArrives b => exact gestureInv_congr s _ rfl rfl rfl h

theorem reachable_gestureInv {s t : SysState} (h0 : gestureInv s) (hr : Reachable s t) :
    gestureInv t := by
  induction hr with
  | refl => exact h0
  | tail hreach hstep ih => exact step_gestureInv hstep ih

theorem entryState_gestureInv (q : List Nat) : gestureInv (entryState q) := by
  refine ⟨?_, ?_, ?_⟩ <;> simp [entryState, Button.clickInProgress, Encoder.rotationInProgress]

@[simp] theorem buttonEmulate_serialIn (s : SysState) (now : Nat) :
    (Button.emulate s now).serialIn = s.serialIn := by
  rw [buttonEmulate_eq]
  split <;> simp

@[simp] theorem encoderEmulate_serialIn (s : SysState) (now : Nat) :
    (Encoder.emulate s now).serialIn = s.serialIn := by
  rw [encoderEmulate_eq]
  split
  · rfl
  · cases s.encState <;> simp

@[simp] theorem emulateButtonStep_serialIn (s : SysState) (now : Nat) :
    (emulateButtonStep s now).serialIn = s.serialIn := by
  unfold emulateButtonStep
  split <;> simp

@[simp] theorem emulateEncoderStep_serialIn (s : SysState) (now : Nat) :
    (emulateEncoderStep s now).serialIn = s.serialIn := by
  unfold emulateEncoderStep
  split <;> simp

theorem dispatchStep_eq_of_gip (s : SysState) (now : Nat) (h : s.gestureInProgress = true) :
    dispatchStep s now = s := by
  unfold dispatchStep
  simp [h]

theorem emulateButtonStep_eq_of_idle (s : SysState) (now : Nat)
    (h : Button.clickInProgress s = false) : emulateButtonStep s now = s := by
  unfold emulateButtonStep
  simp [h]

theorem emulateEncoderStep_eq_of_idle (s : SysState) (now : Nat)
    (h : Encoder.rotationInProgress s = false) : emulateEncoderStep s now = s := by
  unfold emulateEncoderStep
  simp [h]

theorem loopBody_serialIn_of_gip (s : SysState) (now : Nat)
    (h : s.gestureInProgress = true) : (loopBody s now).serialIn = s.serialIn := by
  unfold loopBody
  rw [dispatchStep_eq_of_gip _ now (by simp [h])]
  simp

theorem loopBody_eq_drain_of_locked (s : SysState) (now : Nat)
    (h : s.gestureInProgress = true) (hb : Button.clickInProgress s = false)
    (hr : Encoder.rotationInProgress s = false) : loopBody s now = drainStep s := by
  unfold loopBody
  rw [dispatchStep_eq_of_gip _ now (by simp [h]),
    emulateButtonStep_eq_of_idle _ now (by simp [Button.clickInProgress] at hb ⊢; simpa using hb),
    emulateEncoderStep_eq_of_idle _ now
      (by simp [Encoder.rotationInProgress] at hr ⊢; simpa using hr)]

theorem drainStep_eq_of_ne (s : SysState) (hne : s.idxOfNextLcdRead ≠ s.idxOfNextLcdWrite) :
    drainStep s =
      { s with
        serialOut := s.serialOut ++ [s.lcdBuffer s.idxOfNextLcdRead],
        idxOfNextLcdRead := (s.idxOfNextLcdRead + 1) % BUFFER_SIZE } := by
  unfold drainStep
  rw [if_pos hne, and_mask_eq_mod]

theorem drainN_fifo (n : Nat) :
    ∀ s : SysState, s.idxOfNextLcdWrite < BUFFER_SIZE → s.idxOfNextLcdRead < BUFFER_SIZE →
      n ≤ pendingCount s →
      (drainN n s).serialOut =
        s.serialOut ++
          (List.range n).map (fun i => s.lcdBuffer ((s.idxOfNextLcdRead + i) % BUFFER_SIZE)) := by
  induction n with
  | zero =>
      intro s hw hr hn
      simp [drainN]
  | succ n ih =>
      intro s hw hr hn
      have hne : s.idxOfNextLcdRead ≠ s.idxOfNextLcdWrite := by
        simp only [pendingCount, BUFFER_SIZE] at hn
        omega
      have hd := drainStep_eq_of_ne s hne
      have hw' : (drainStep s).idxOfNextLcdWrite < BUFFER_SIZE := by
        rw [hd]
        exact hw
      have hr' : (drainStep s).idxOfNextLcdRead < BUFFER_SIZE := by
        rw [hd]
        exact Nat.mod_lt _ (by norm_num [BUFFER_SIZE])
      have hn' : n ≤ pendingCount (drainStep s) := by
        rw [hd]
        simp only [pendingCount, BUFFER_SIZE] at hn ⊢
        omega
      have hih := ih (drainStep s) hw' hr' hn'
      show (drainN n (drainStep s)).serialOut = _
      rw [hih, hd]
      dsimp only
      rw [List.range_succ_eq_map, List.map_cons, List.map_map]
      have hf : (fun i => s.lcdBuffer (((s.idxOfNextLcdRead + 1) % BUFFER_SIZE + i) % BUFFER_SIZE)) =
          ((fun i => s.lcdBuffer ((s.idxOfNextLcdRead + i) % BUFFER_SIZE)) ∘ Nat.succ) := by
        funext i
        simp only [Function.comp]
        rw [Nat.mod_add_mod]
        have harith : s.idxOfNextLcdRead + 1 + i = s.idxOfNextLcdRead + Nat.succ i := by
          omega
        rw [harith]
      rw [hf]
      have h0 : (s.idxOfNextLcdRead + 0) % BUFFER_SIZE = s.idxOfNextLcdRead := by
        simpa using Nat.mod_eq_of_lt hr
      rw [h0]
      simp

/-- C3: `sendControlMessage`, applied to either control value (`0xFF` for
PoweredUp, `0xFE` for PoweredDown), emits exactly the two bytes
`byte1 = ((value & 0x80) >> 2) | ((value & 0x70) >> 4)` and
`byte2 = ((value & 0x08) << 2) | (value & 0x07)`, and in both emitted
bytes the upper two bits (mask `0xC0`) and the register-select bit
position (bit 4, mask `0x10`) are zero. -/
theorem sendControlMessage_spec :
    (∀ (s : SysState) (msg : Nat),
        (sendControlMessage s msg).serialOut =
          s.serialOut ++
            [((msg &&& 0x80) >>> 2) ||| ((msg &&& 0x70) >>> 4),
              ((msg &&& 0x08) <<< 2) ||| (msg &&& 0x07)]) ∧
      ctrlBits1 USDX_POWERED_UP &&& 0xC0 = 0 ∧ ctrlBits1 USDX_POWERED_UP &&& 0x10 = 0 ∧
      ctrlBits2 USDX_POWERED_UP &&& 0xC0 = 0 ∧ ctrlBits2 USDX_POWERED_UP &&& 0x10 = 0 ∧
      ctrlBits1 USDX_POWERED_DOWN &&& 0xC0 = 0 ∧ ctrlBits1 USDX_POWERED_DOWN &&& 0x10 = 0 ∧
      ctrlBits2 USDX_POWERED_DOWN &&& 0xC0 = 0 ∧ ctrlBits2 USDX_POWERED_DOWN &&& 0x10 = 0 := by
  refine ⟨fun s msg => ?_, by decide, by decide, by decide, by decide, by decide, by decide,
    by decide, by decide⟩
  simp [sendControlMessage, ctrlBits1, ctrlBits2, Nat.and_comm]

/-- C4: the control-message encoding is deterministic (a single pair of
bytes per value); decoding the PoweredUp and PoweredDown frames with the
inverse bit-splitting rule recovers the full command bytes, whose DDRAM
address fields are the reserved values 127 and 126; and no in-range
set-DDRAM-address command (address 0..103) encodes to either frame. -/
theorem controlMessage_roundtrip :
    (∀ (s : SysState) (msg : Nat),
        (sendControlMessage s msg).serialOut = s.serialOut ++ [ctrlBits1 msg, ctrlBits2 msg]) ∧
      decodeControlBytes (ctrlBits1 USDX_POWERED_UP) (ctrlBits2 USDX_POWERED_UP) =
        USDX_POWERED_UP ∧
      decodeControlBytes (ctrlBits1 USDX_POWERED_DOWN) (ctrlBits2 USDX_POWERED_DOWN) =
        USDX_POWERED_DOWN ∧
      USDX_POWERED_UP &&& 0x7F = 127 ∧ USDX_POWERED_DOWN &&& 0x7F = 126 ∧
      (∀ a < 104,
        (ctrlBits1 (setDdramAddressCmd a) ≠ ctrlBits1 USDX_POWERED_UP ∨
            ctrlBits2 (setDdramAddressCmd a) ≠ ctrlBits2 USDX_POWERED_UP) ∧
          (ctrlBits1 (setDdramAddressCmd a) ≠ ctrlBits1 USDX_POWERED_DOWN ∨
            ctrlBits2 (setDdramAddressCmd a) ≠ ctrlBits2 USDX_POWERED_DOWN)) := by
  refine ⟨fun s msg => rfl, by decide, by decide, by decide, by decide, ?_⟩
  decide

/-- C4 witness: the set-address frame for address 0 differs from the
PoweredUp frame. -/
theorem controlMessage_roundtrip_witness :
    ctrlBits1 (setDdramAddressCmd 0) ≠ ctrlBits1 USDX_POWERED_UP ∨
      ctrlBits2 (setDdramAddressCmd 0) ≠ ctrlBits2 USDX_POWERED_UP :=
  (controlMessage_roundtrip.2.2.2.2.2 0 (by decide)).1

/-- C10: `startPushToTalk` and `endPushToTalk` are idempotent — calling
either twice yields exactly the state of calling it once — and each
leaves `gestureInProgress` false on return. -/
theorem pushToTalk_idempotent :
    ∀ s : SysState,
      startPushToTalk (startPushToTalk s) = startPushToTalk s ∧
        endPushToTalk (endPushToTalk s) = endPushToTalk s ∧
        (startPushToTalk s).gestureInProgress = false ∧
        (endPushToTalk s).gestureInProgress = false := by
  intro s
  refine ⟨?_, ?_, rfl, rfl⟩
  · unfold startPushToTalk digitalWrite pinModeSet
    dsimp only
    congr 1
    · funext q
      by_cases hq : q = Pin.PUSH_TO_TALK <;> simp [hq]
    · funext q
      by_cases hq : q = Pin.PUSH_TO_TALK <;> simp [hq]
  · unfold endPushToTalk pinModeSet
    dsimp only
    congr 1
    funext q
    by_cases hq : q = Pin.PUSH_TO_TALK <;> simp [hq]

/-- C1: dispatching a byte outside 1..8 performs no emulator action, but
it is not a silent no-op: the dispatch prologue sets `gestureInProgress`
to true before the switch, and with both emulators idle no later loop
iteration ever clears the flag or consumes another serial byte, so the
gesture channel locks up. -/
theorem unknownGesture_locks_dispatcher :
    (∀ (s : SysState) (g now : Nat), g = 0 ∨ 8 < g →
        performInputGesture s g now = { s with gestureInProgress := true }) ∧
      (∀ (t : SysState) (now : Nat), t.gestureInProgress = true →
        Button.clickInProgress t = false → Encoder.rotationInProgress t = false →
        (loopBody t now).gestureInProgress = true ∧
          (loopBody t now).serialIn = t.serialIn ∧
          Button.clickInProgress (loopBody t now) = false ∧
          Encoder.rotationInProgress (loopBody t now) = false) := by
  constructor
  · intro s g now hg
    have h1 : ¬(g = CLICK_LEFT_BUTTON) := by simp [CLICK_LEFT_BUTTON]; omega
    have h2 : ¬(g = CLICK_RIGHT_BUTTON) := by simp [CLICK_RIGHT_BUTTON]; omega
    have h3 : ¬(g = CLICK_ENCODER_BUTTON) := by simp [CLICK_ENCODER_BUTTON]; omega
    have h4 : ¬(g = ROTATE_ENCODER_CLOCKWISE) := by simp [ROTATE_ENCODER_CLOCKWISE]; omega
    have h5 : ¬(g = ROTATE_ENCODER_COUNTERCLOCKWISE) := by
      simp [ROTATE_ENCODER_COUNTERCLOCKWISE]; omega
    have h6 : ¬(g = PUSH_TO_TALK_START) := by simp [PUSH_TO_TALK_START]; omega
    have h7 : ¬(g = PUSH_TO_TALK_END) := by simp [PUSH_TO_TALK_END]; omega
    have h8 : ¬(g = RESET_THE_USDX) := by simp [RESET_THE_USDX]; omega
    unfold performInputGesture
    simp [h1, h2, h3, h4, h5, h6, h7, h8]
  · intro t now hg hb hr
    rw [loopBody_eq_drain_of_locked t now hg hb hr]
    refine ⟨by simp [hg], by simp, ?_, ?_⟩
    · simp [Button.clickInProgress] at hb ⊢
      simpa using hb
    · simp [Encoder.rotationInProgress] at hr ⊢
      simpa using hr

/-- C1 witness: dispatching byte 9 on the fresh entry state leaves
everything unchanged except `gestureInProgress`, which becomes true. -/
theorem unknownGesture_locks_dispatcher_witness :
    performInputGesture (entryState []) 9 0 =
      { entryState [] with gestureInProgress := true } :=
  unknownGesture_locks_dispatcher.1 (entryState []) 9 0 (Or.inr (by decide))

/-- C7 counterexample: with a click started at time 0, at `millis() = 5`
the elapsed time equals the 5 ms pulse duration, yet `Button::emulate`
does nothing (the source tests `millis() > start + PULSE_DURATION`,
strictly), so the claimed "at least 5 ms" boundary is wrong. -/
theorem buttonEmulate_boundary_counterexample :
    Button.clickInProgress btnSample = true ∧
      PULSE_DURATION ≤ 5 - btnSample.timeOfClickStart ∧
      Button.emulate btnSample 5 = btnSample ∧
      (Button.emulate btnSample 5).pinOfButtonClicked = Pin.LEFT_BUTTON ∧
      (Button.endClick btnSample).pinOfButtonClicked = 0 :=
  ⟨by decide, by decide, rfl, by decide, by decide⟩

/-- C7 (amended): while a click is active, `Button::emulate` performs
`endClick` if and only if the elapsed time since `startClick` strictly
exceeds the 5 ms pulse duration (`millis() > start + PULSE_DURATION`);
and `endClick` drives the active pin to the opposite of its current
level, returns it to input, clears the active-pin/start-time record and
clears `gestureInProgress`. -/
theorem buttonEmulate_strict_spec :
    ∀ (s : SysState) (now : Nat), Button.clickInProgress s = true →
      (Button.emulate s now = Button.endClick s ↔ s.timeOfClickStart + PULSE_DURATION < now) ∧
        (¬s.timeOfClickStart + PULSE_DURATION < now → Button.emulate s now = s) ∧
        (Button.endClick s).pinLevel s.pinOfButtonClicked =
          !(s.pinLevel s.pinOfButtonClicked) ∧
        (Button.endClick s).pinModeOf s.pinOfButtonClicked = PinMode.INPUT ∧
        (Button.endClick s).timeOfClickStart = 0 ∧
        (Button.endClick s).pinOfButtonClicked = 0 ∧
        (Button.endClick s).gestureInProgress = false := by
  intro s now hc
  have hpin : 0 < s.pinOfButtonClicked := (clickInProgress_iff s).1 hc
  refine ⟨⟨?_, ?_⟩, ?_, ?_, ?_, rfl, rfl, rfl⟩
  · intro he
    by_contra hlt
    rw [buttonEmulate_eq, if_neg hlt] at he
    have := congrArg SysState.pinOfButtonClicked he
    rw [endClick_pinOfButtonClicked] at this
    omega
  · intro hlt
    rw [buttonEmulate_eq, if_pos hlt]
  · intro hlt
    rw [buttonEmulate_eq, if_neg hlt]
  · simp [Button.endClick, digitalWrite, pinModeSet, digitalRead]
  · simp [Button.endClick, digitalWrite, pinModeSet]

/-- C7 witness: one millisecond past the strict boundary the click is
released via `endClick`. -/
theorem buttonEmulate_strict_spec_witness :
    Button.emulate btnSample 6 = Button.endClick btnSample :=
  ((buttonEmulate_strict_spec btnSample 6 (by decide)).1).mpr (by decide)

/-- C9: the service-loop entry state has both capture-buffer indices in
`0..BUFFER_SIZE-1`, and each operation that modifies the indices — the
capture interrupt's append, the main-loop drain, and the reset command's
index reset — keeps both of them in that range, so every
`lcdBuffer[index]` access is within bounds. -/
theorem bufferIndex_bounds :
    (∀ q : List Nat, idxInv (entryState q)) ∧
      (∀ (s : SysState) (b now : Nat), idxInv s →
        idxInv (lcdActivityISR s b) ∧ idxInv (drainStep s) ∧ idxInv (doUsdxReset s now)) := by
  constructor
  · intro q
    exact ⟨by norm_num [entryState, BUFFER_SIZE], by norm_num [entryState, BUFFER_SIZE]⟩
  · intro s b now h
    refine ⟨⟨?_, ?_⟩, ?_, ⟨?_, ?_⟩⟩
    · rw [lcdActivityISR_idxOfNextLcdWrite]
      exact and_mask_lt _
    · rw [lcdActivityISR_idxOfNextLcdRead]
      exact h.2
    · unfold drainStep
      split
      · exact ⟨h.1, and_mask_lt _⟩
      · exact h
    · rw [doUsdxReset_idxOfNextLcdWrite]
      norm_num [BUFFER_SIZE]
    · rw [doUsdxReset_idxOfNextLcdRead]
      norm_num [BUFFER_SIZE]

/-- C9 witness: the invariant holds after one interrupt append to the
fresh entry state. -/
theorem bufferIndex_bounds_witness : idxInv (lcdActivityISR (entryState []) 0x41) :=
  (bufferIndex_bounds.2 (entryState []) 0x41 0
    (⟨by norm_num [entryState, BUFFER_SIZE], by norm_num [entryState, BUFFER_SIZE]⟩ :
      idxInv (entryState []))).1

/-- C5: the capture interrupt appends the sampled byte at the write index
and advances the write index under the capacity mask without ever
dropping the write; when the advanced write index equals the read index
it raises the overflow LED (and otherwise leaves the pin levels alone);
the main-loop drain, whenever the indices differ, emits the byte at the
read index and advances the read index; and n successive drains deliver
the n oldest unread bytes in FIFO order unmodified. -/
theorem captureBuffer_spec :
    (∀ (s : SysState) (b : Nat),
        (lcdActivityISR s b).lcdBuffer s.idxOfNextLcdWrite = b ∧
          (lcdActivityISR s b).idxOfNextLcdWrite =
            (s.idxOfNextLcdWrite + 1) &&& BUFFER_INDEX_MASK ∧
          (lcdActivityISR s b).idxOfNextLcdRead = s.idxOfNextLcdRead ∧
          ((s.idxOfNextLcdWrite + 1) &&& BUFFER_INDEX_MASK = s.idxOfNextLcdRead →
            (lcdActivityISR s b).pinLevel LED_BUILTIN = true) ∧
          ((s.idxOfNextLcdWrite + 1) &&& BUFFER_INDEX_MASK ≠ s.idxOfNextLcdRead →
            (lcdActivityISR s b).pinLevel = s.pinLevel)) ∧
      (∀ s : SysState, s.idxOfNextLcdRead ≠ s.idxOfNextLcdWrite →
        (drainStep s).serialOut = s.serialOut ++ [s.lcdBuffer s.idxOfNextLcdRead] ∧
          (drainStep s).idxOfNextLcdRead = (s.idxOfNextLcdRead + 1) &&& BUFFER_INDEX_MASK) ∧
      (∀ (n : Nat) (s : SysState), s.idxOfNextLcdWrite < BUFFER_SIZE →
        s.idxOfNextLcdRead < BUFFER_SIZE → n ≤ pendingCount s →
        (drainN n s).serialOut =
          s.serialOut ++
            (List.range n).map (fun i => s.lcdBuffer ((s.idxOfNextLcdRead + i) % BUFFER_SIZE))) := by
  refine ⟨?_, ?_, drainN_fifo⟩
  · intro s b
    refine ⟨?_, lcdActivityISR_idxOfNextLcdWrite s b, lcdActivityISR_idxOfNextLcdRead s b,
      ?_, ?_⟩
    · unfold lcdActivityISR
      dsimp only
      split <;> simp [digitalWrite]
    · intro hov
      unfold lcdActivityISR
      dsimp only
      rw [if_pos hov]
      simp [digitalWrite]
    · intro hov
      unfold lcdActivityISR
      dsimp only
      rw [if_neg hov]
  · intro s hne
    rw [drainStep_eq_of_ne s hne, and_mask_eq_mod]
    exact ⟨rfl, rfl⟩

/-- C5 witness: after capturing byte `0x41` into the fresh entry state,
one drain emits exactly that byte. -/
theorem captureBuffer_spec_witness :
    (drainStep lcdSample).serialOut =
      lcdSample.serialOut ++ [lcdSample.lcdBuffer lcdSample.idxOfNextLcdRead] :=
  (captureBuffer_spec.2.1 lcdSample (by decide)).1

/-- C8: the service loop runs exactly while `usdxPowerOn` is true or the
capture buffer has unread bytes (the guard unfolds to that disjunction,
the loop halts immediately when it is false and advances one `loopBody`
iteration when it is true); and on exit `loop()` detaches both
interrupts and only then emits the PoweredDown control message. -/
theorem serviceLoop_spec :
    (∀ s : SysState,
        svcCond s = true ↔
          (s.usdxPowerOn = true ∨ s.idxOfNextLcdRead ≠ s.idxOfNextLcdWrite)) ∧
      (∀ (fuel : Nat) (clk : Nat → Nat) (i : Nat) (s : SysState), svcCond s = false →
        serviceLoop fuel clk i s = s) ∧
      (∀ (fuel : Nat) (clk : Nat → Nat) (i : Nat) (s : SysState), svcCond s = true →
        serviceLoop (fuel + 1) clk i s = serviceLoop fuel clk (i + 1) (loopBody s (clk i))) ∧
      (∀ s : SysState,
        afterServiceLoop s =
          sendControlMessage { s with lcdPowerArmed := false, lcdEnableArmed := false }
            USDX_POWERED_DOWN) ∧
      (∀ s : SysState,
        (afterServiceLoop s).lcdPowerArmed = false ∧
          (afterServiceLoop s).lcdEnableArmed = false ∧
          (afterServiceLoop s).serialOut =
            s.serialOut ++ [ctrlBits1 USDX_POWERED_DOWN, ctrlBits2 USDX_POWERED_DOWN]) ∧
      (∀ (fuel : Nat) (clk : Nat → Nat) (s : SysState),
        loopOnce true fuel clk s =
          afterServiceLoop (serviceLoop fuel clk 0
            { s with usdxPowerOn := true, lcdEnableArmed := true, lcdPowerArmed := true })) := by
  refine ⟨?_, ?_, ?_, fun s => rfl, fun s => ⟨rfl, rfl, rfl⟩, fun fuel clk s => rfl⟩
  · intro s
    simp [svcCond]
  · intro fuel clk i s h
    cases fuel with
    | zero => rfl
    | succ fuel =>
        unfold serviceLoop
        simp [h]
  · intro fuel clk i s h
    unfold serviceLoop
    simp only [h, if_true]
    cases fuel <;> rfl

/-- C8 witness: once `usdxPowerOn` is cleared on the fresh entry state
the service loop exits at once. -/
theorem serviceLoop_spec_witness :
    serviceLoop 5 (fun _ => 0) 0 haltSample = haltSample :=
  serviceLoop_spec.2.1 5 (fun _ => 0) 0 haltSample (by decide)

/-- C2 counterexample: from the entry state with the byte sequence
`[PUSH_TO_TALK_START, CLICK_LEFT_BUTTON]`, two service-loop iterations
reach a state where push-to-talk is engaged (pin driven low as output)
while a button click is simultaneously active, refuting the three-way
mutual exclusion. -/
theorem gestureExclusivity_counterexample :
    Reachable (entryState [PUSH_TO_TALK_START, CLICK_LEFT_BUTTON]) pttTrace2 ∧
      pttTrace2.pinModeOf Pin.PUSH_TO_TALK = PinMode.OUTPUT ∧
      pttTrace2.pinLevel Pin.PUSH_TO_TALK = false ∧
      Button.clickInProgress pttTrace2 = true ∧
      pttTrace2.gestureInProgress = true := by
  refine ⟨?_, by decide, by decide, by decide, by decide⟩
  exact Reachable.tail (Reachable.tail (Reachable.refl _)
    (Step.loopIter (entryState [PUSH_TO_TALK_START, CLICK_LEFT_BUTTON]) 0))
    (Step.loopIter pttTrace1 0)

/-- C2 (amended): in every reachable state at most one of {Button
Emulator active, Encoder Emulator active} is true (each implies
`gestureInProgress`), and while `gestureInProgress` is true the
dispatcher consumes no gesture byte from the serial link; push-to-talk
engagement, however, clears `gestureInProgress` immediately and may
overlap a later button or encoder gesture. -/
theorem gestureExclusivity_amended :
    (∀ (q : List Nat) (t : SysState), Reachable (entryState q) t →
        (Button.clickInProgress t = true → t.gestureInProgress = true) ∧
          (Encoder.rotationInProgress t = true → t.gestureInProgress = true) ∧
          ¬(Button.clickInProgress t = true ∧ Encoder.rotationInProgress t = true)) ∧
      (∀ (s : SysState) (now : Nat), s.gestureInProgress = true →
        (loopBody s now).serialIn = s.serialIn) := by
  constructor
  · intro q t h
    exact reachable_gestureInv (entryState_gestureInv q) h
  · exact loopBody_serialIn_of_gip

/-- C2 witness: the exclusivity consequence instantiated at the fresh
entry state itself. -/
theorem gestureExclusivity_amended_witness :
    ¬(Button.clickInProgress (entryState []) = true ∧
        Encoder.rotationInProgress (entryState []) = true) :=
  (gestureExclusivity_amended.1 [] (entryState []) (Reachable.refl (entryState []))).2.2

theorem dropFirstPin_level_mono (s : SysState) (now : Nat) (p : Nat)
    (h : (Encoder.dropFirstPin s now).pinLevel p = true) : s.pinLevel p = true := by
  by_cases hq : p = s.firstPin
  · simp [Encoder.dropFirstPin, digitalWrite, pinModeSet, hq] at h
  · simpa [Encoder.dropFirstPin, digitalWrite, pinModeSet, hq] using h

theorem dropSecondPin_level_mono (s : SysState) (now : Nat) (p : Nat)
    (h : (Encoder.dropSecondPin s now).pinLevel p = true) : s.pinLevel p = true := by
  by_cases hq : p = s.secondPin
  · simp [Encoder.dropSecondPin, digitalWrite, pinModeSet, hq] at h
  · simpa [Encoder.dropSecondPin, digitalWrite, pinModeSet, hq] using h

@[simp] theorem raiseFirstPin_pinLevel (s : SysState) (now : Nat) :
    (Encoder.raiseFirstPin s now).pinLevel = s.pinLevel := rfl

@[simp] theorem raiseSecondPin_pinLevel (s : SysState) (now : Nat) :
    (Encoder.raiseSecondPin s now).pinLevel = s.pinLevel := rfl

theorem performInputGesture_cw_eq (s : SysState) (now : Nat) :
    performInputGesture s ROTATE_ENCODER_CLOCKWISE now =
      Encoder.dropFirstPin
        { s with gestureInProgress := true, firstPin := Pin.ROT_A, secondPin := Pin.ROT_B }
        now := by
  simp [performInputGesture, Encoder.startRotation, CLICK_LEFT_BUTTON, CLICK_RIGHT_BUTTON,
    CLICK_ENCODER_BUTTON, ROTATE_ENCODER_CLOCKWISE]

theorem performInputGesture_ccw_eq (s : SysState) (now : Nat) :
    performInputGesture s ROTATE_ENCODER_COUNTERCLOCKWISE now =
      Encoder.dropFirstPin
        { s with gestureInProgress := true, firstPin := Pin.ROT_B, secondPin := Pin.ROT_A }
        now := by
  simp [performInputGesture, Encoder.startRotation, CLICK_LEFT_BUTTON, CLICK_RIGHT_BUTTON,
    CLICK_ENCODER_BUTTON, ROTATE_ENCODER_CLOCKWISE, ROTATE_ENCODER_COUNTERCLOCKWISE]

/-- C6: a rotate gesture assigns the pins by direction (clockwise
(A,B), counterclockwise (B,A)) and enters Phase1 driving the first pin
low; `Encoder::emulate` is a no-op until 5 ms have elapsed since phase
entry and then steps Phase1→Phase2→Phase3→Idle exactly in order (Idle
is absorbing), re-stamping the phase-entry time, touching only the
assigned pin of each phase, clearing `gestureInProgress` on the final
step; and neither dispatch nor any phase ever raises a pin's drive level
to high. -/
theorem encoderRotation_spec :
    (∀ (s : SysState) (now : Nat),
        (performInputGesture s ROTATE_ENCODER_CLOCKWISE now).firstPin = Pin.ROT_A ∧
          (performInputGesture s ROTATE_ENCODER_CLOCKWISE now).secondPin = Pin.ROT_B ∧
          (performInputGesture s ROTATE_ENCODER_CLOCKWISE now).encState =
            EncState.ENC_STATE_1 ∧
          (performInputGesture s ROTATE_ENCODER_CLOCKWISE now).encStateTime = now ∧
          (performInputGesture s ROTATE_ENCODER_CLOCKWISE now).pinModeOf Pin.ROT_A =
            PinMode.OUTPUT ∧
          (performInputGesture s ROTATE_ENCODER_CLOCKWISE now).pinLevel Pin.ROT_A = false ∧
          (∀ p : Nat, p ≠ Pin.ROT_A →
            (performInputGesture s ROTATE_ENCODER_CLOCKWISE now).pinModeOf p =
                s.pinModeOf p ∧
              (performInputGesture s ROTATE_ENCODER_CLOCKWISE now).pinLevel p =
                s.pinLevel p)) ∧
      (∀ (s : SysState) (now : Nat),
        (performInputGesture s ROTATE_ENCODER_COUNTERCLOCKWISE now).firstPin = Pin.ROT_B ∧
          (performInputGesture s ROTATE_ENCODER_COUNTERCLOCKWISE now).secondPin = Pin.ROT_A ∧
          (performInputGesture s ROTATE_ENCODER_COUNTERCLOCKWISE now).encState =
            EncState.ENC_STATE_1 ∧
          (performInputGesture s ROTATE_ENCODER_COUNTERCLOCKWISE now).encStateTime = now ∧
          (performInputGesture s ROTATE_ENCODER_COUNTERCLOCKWISE now).pinModeOf Pin.ROT_B =
            PinMode.OUTPUT ∧
          (performInputGesture s ROTATE_ENCODER_COUNTERCLOCKWISE now).pinLevel Pin.ROT_B =
            false ∧
          (∀ p : Nat, p ≠ Pin.ROT_B →
            (performInputGesture s ROTATE_ENCODER_COUNTERCLOCKWISE now).pinModeOf p =
                s.pinModeOf p ∧
              (performInputGesture s ROTATE_ENCODER_COUNTERCLOCKWISE now).pinLevel p =
                s.pinLevel p)) ∧
      (∀ (s : SysState) (now : Nat), now - s.encStateTime < PULSE_DURATION →
        Encoder.emulate s now = s) ∧
      (∀ (s : SysState) (now : Nat), PULSE_DURATION ≤ now - s.encStateTime →
        (s.encState = EncState.ENC_STATE_1 →
          (Encoder.emulate s now).encState = EncState.ENC_STATE_2 ∧
            (Encoder.emulate s now).encStateTime = now ∧
            (Encoder.emulate s now).gestureInProgress = s.gestureInProgress ∧
            (Encoder.emulate s now).pinModeOf s.secondPin = PinMode.OUTPUT ∧
            (Encoder.emulate s now).pinLevel s.secondPin = false ∧
            (∀ p : Nat, p ≠ s.secondPin →
              (Encoder.emulate s now).pinModeOf p = s.pinModeOf p ∧
                (Encoder.emulate s now).pinLevel p = s.pinLevel p)) ∧
          (s.encState = EncState.ENC_STATE_2 →
            (Encoder.emulate s now).encState = EncState.ENC_STATE_3 ∧
              (Encoder.emulate s now).encStateTime = now ∧
              (Encoder.emulate s now).gestureInProgress = s.gestureInProgress ∧
              (Encoder.emulate s now).pinModeOf s.firstPin = PinMode.INPUT ∧
              (Encoder.emulate s now).pinLevel = s.pinLevel ∧
              (∀ p : Nat, p ≠ s.firstPin →
                (Encoder.emulate s now).pinModeOf p = s.pinModeOf p)) ∧
          (s.encState = EncState.ENC_STATE_3 →
            (Encoder.emulate s now).encState = EncState.ENC_STATE_IDLE ∧
              (Encoder.emulate s now).gestureInProgress = false ∧
              (Encoder.emulate s now).encStateTime = now ∧
              (Encoder.emulate s now).pinModeOf s.secondPin = PinMode.INPUT ∧
              (Encoder.emulate s now).pinLevel = s.pinLevel ∧
              (∀ p : Nat, p ≠ s.secondPin →
                (Encoder.emulate s now).pinModeOf p = s.pinModeOf p)) ∧
          (s.encState = EncState.ENC_STATE_IDLE → Encoder.emulate s now = s)) ∧
      (∀ (s : SysState) (now p : Nat),
        (Encoder.emulate s now).pinLevel p = true → s.pinLevel p = true) ∧
      (∀ (s : SysState) (now p : Nat),
        (performInputGesture s ROTATE_ENCODER_CLOCKWISE now).pinLevel p = true →
          s.pinLevel p = true) ∧
      (∀ (s : SysState) (now p : Nat),
        (performInputGesture s ROTATE_ENCODER_COUNTERCLOCKWISE now).pinLevel p = true →
          s.pinLevel p = true) := by
  refine ⟨?_, ?_, ?_, ?_, ?_, ?_, ?_⟩
  · intro s now
    rw [performInputGesture_cw_eq]
    refine ⟨rfl, rfl, rfl, rfl, ?_, ?_, ?_⟩
    · simp [Encoder.dropFirstPin, pinModeSet, digitalWrite]
    · simp [Encoder.dropFirstPin, pinModeSet, digitalWrite]
    · intro p hp
      exact ⟨by simp [Encoder.dropFirstPin, pinModeSet, digitalWrite, hp],
        by simp [Encoder.dropFirstPin, pinModeSet, digitalWrite, hp]⟩
  · intro s now
    rw [performInputGesture_ccw_eq]
    refine ⟨rfl, rfl, rfl, rfl, ?_, ?_, ?_⟩
    · simp [Encoder.dropFirstPin, pinModeSet, digitalWrite]
    · simp [Encoder.dropFirstPin, pinModeSet, digitalWrite]
    · intro p hp
      exact ⟨by simp [Encoder.dropFirstPin, pinModeSet, digitalWrite, hp],
        by simp [Encoder.dropFirstPin, pinModeSet, digitalWrite, hp]⟩
  · intro s now h
    rw [encoderEmulate_eq, if_pos h]
  · intro s now h5
    have hnot : ¬(now - s.encStateTime < PULSE_DURATION) := by omega
    refine ⟨?_, ?_, ?_, ?_⟩
    · intro h1
      rw [encoderEmulate_eq, if_neg hnot, h1]
      refine ⟨rfl, rfl, rfl, ?_, ?_, ?_⟩
      · simp [Encoder.dropSecondPin, pinModeSet, digitalWrite]
      · simp [Encoder.dropSecondPin, pinModeSet, digitalWrite]
      · intro p hp
        exact ⟨by simp [Encoder.dropSecondPin, pinModeSet, digitalWrite, hp],
          by simp [Encoder.dropSecondPin, pinModeSet, digitalWrite, hp]⟩
    · intro h2
      rw [encoderEmulate_eq, if_neg hnot, h2]
      refine ⟨rfl, rfl, rfl, ?_, rfl, ?_⟩
      · simp [Encoder.raiseFirstPin, pinModeSet]
      · intro p hp
        simp [Encoder.raiseFirstPin, pinModeSet, hp]
    · intro h3
      rw [encoderEmulate_eq, if_neg hnot, h3]
      refine ⟨rfl, rfl, rfl, ?_, rfl, ?_⟩
      · simp [Encoder.raiseSecondPin, pinModeSet]
      · intro p hp
        simp [Encoder.raiseSecondPin, pinModeSet, hp]
    · intro hidle
      rw [encoderEmulate_eq, if_neg hnot, hidle]
  · intro s now p
    rw [encoderEmulate_eq]
    split
    · exact id
    · cases hst : s.encState with
      | ENC_STATE_IDLE => exact id
      | ENC_STATE_1 => exact dropSecondPin_level_mono s now p
      | ENC_STATE_2 =>
          intro h
          simpa using h
      | ENC_STATE_3 =>
          intro h
          simpa using h
  · intro s now p
    rw [performInputGesture_cw_eq]
    exact fun h => dropFirstPin_level_mono
      { s with gestureInProgress := true, firstPin := Pin.ROT_A, secondPin := Pin.ROT_B }
      now p h
  · intro s now p
    rw [performInputGesture_ccw_eq]
    exact fun h => dropFirstPin_level_mono
      { s with gestureInProgress := true, firstPin := Pin.ROT_B, secondPin := Pin.ROT_A }
      now p h

/-- C6 witness: a clockwise rotation dispatched at time 0 steps from
Phase1 to Phase2 when emulated at time 5. -/
theorem encoderRotation_spec_witness :
    (Encoder.emulate encSample 5).encState = EncState.ENC_STATE_2 :=
  ((encoderRotation_spec.2.2.2.1 encSample 5 (by decide)).1 (by decide)).1

end HD44780
